import Mathlib

/-!
Shallow embedding of `src/src/libtego/source/context.cpp` (the libtego
context adapter of ricochet-refresh): log aggregation, status translation,
bootstrap-tag tables and the daemon-configuration patch builder, together
with theorems about the public ABI operations built on them.

Conventions: C++ `size_t` is modelled as `Nat` with wrap-around made
explicit (`% 2 ^ 64`) where the source can underflow; a C++ function that
throws (caught by `tego::translateExceptions`, which sets the error object
and returns the sentinel) is modelled as returning `Option.none` or a
dedicated error constructor; raw C enum values are modelled as `Int`.
-/

namespace Tego

/-! ## Log aggregation -/

/-- The incremental mirror step of `tego_context::get_tor_logs`
(context.cpp lines 49-66): if the collaborator-reported list `remote` has a
different length than the local mirror `loc`, the loop appends
`remote[i]` for `i` from `loc.length` to `remote.length - 1` (which is a
no-op when `remote` is shorter); otherwise the mirror is left untouched.
In both branches the result equals `loc ++ remote.drop loc.length`. -/
def syncLogs (loc remote : List String) : List String :=
  if remote.length ≠ loc.length then
    loc ++ remote.drop loc.length
  else
    loc

/-- `tego_context::get_tor_logs_size` (context.cpp lines 39-47): starts
from 0 and adds `msg.size() + 1` for every mirrored log line. -/
def get_tor_logs_size (logs : List String) : Nat :=
  logs.foldl (fun acc msg => acc + (msg.length + 1)) 0

/-- The temporary serialization buffer built inside
`tego_context_get_tor_logs` (context.cpp lines 404-415): every log line is
copied followed by a single `'\n'`, and a final null byte is appended. -/
def serializeLogs (logs : List String) : List Char :=
  (logs.foldl (fun acc line => acc ++ line.data ++ ['\n']) []) ++ [Char.ofNat 0]

/-- The bytes that `tego_context_get_tor_logs` leaves in the caller's
buffer on the valid-context, valid-buffer path (context.cpp lines
417-423), paired with the returned byte count: `copyCount =
min(logBufferSize, logBuffer.size())` bytes of the serialization are
copied, then the byte at index `copyCount - 1` is overwritten with null.
This model uses `Nat` subtraction and so is meaningful for capacity ≥ 1;
the `size_t` wrap of the capacity-0 path is modelled separately by
`tego_context_get_tor_logs_writes`. -/
def copyLogsInto (logs : List String) (cap : Nat) : Nat × List Char :=
  let serial := serializeLogs logs
  let copyCount := min cap serial.length
  (copyCount, (serial.take copyCount).set (copyCount - 1) (Char.ofNat 0))

/-- One more than the largest value of the C++ `size_t` (64-bit build). -/
def SIZE_T_MOD : Nat := 2 ^ 64

/-- The ABI view of `tego_context_get_tor_logs` (context.cpp lines
389-425) as the set of byte indices it stores into `out_logBuffer`,
`Option.none` meaning the call threw, was caught at the boundary, set the
error and returned the sentinel 0 without touching the buffer. The code
null-checks `context` and `out_logBuffer` but never checks
`logBufferSize`; the copy stores indices `[0, copyCount)` and the forced
terminator is stored at index `copyCount - 1` computed in `size_t`
arithmetic, which wraps to `2 ^ 64 - 1` when `copyCount = 0`. -/
def tego_context_get_tor_logs_writes (ctxPresent bufferPresent : Bool)
    (logs : List String) (cap : Nat) : Option (Nat × List Nat) :=
  if ctxPresent = false then
    Option.none
  else if bufferPresent = false then
    Option.none
  else
    let copyCount := min cap (serializeLogs logs).length
    some (copyCount, List.range copyCount ++ [(copyCount + (SIZE_T_MOD - 1)) % SIZE_T_MOD])

/-! ## Daemon configuration patch (tego_context::update_tor_daemon_config) -/

inductive tego_proxy_type
  | none
  | socks4
  | socks5
  | https
deriving DecidableEq

/-- The proxy descriptor carried by a daemon config
(fields read by context.cpp lines 219-249). -/
structure tego_proxy where
  type : tego_proxy_type
  address : String
  port : Nat
  username : String
  password : String
deriving DecidableEq

/-- The optional-field daemon configuration input
(fields read by context.cpp lines 214-277). -/
structure tego_tor_daemon_config where
  disableNetwork : Option Bool
  proxy : tego_proxy
  allowedPorts : List Nat
  bridges : List String
deriving DecidableEq

/-- A `QVariant` value as used by the patch map: either a string or a
list of bridge-line strings (context.cpp lines 270-275). -/
inductive QVariant
  | str (s : String)
  | strList (l : List String)
deriving DecidableEq

/-- `QVariantMap::operator[] = v`: replace the value of an existing key in
place, otherwise append the new binding. -/
def setVar : List (String × QVariant) → String → QVariant → List (String × QVariant)
  | [], k, v => [(k, v)]
  | (k', v') :: rest, k, v =>
      if k' = k then (k', v) :: rest else (k', v') :: setVar rest k v

/-- The recognized configuration keys, in declaration order
(context.cpp lines 195-207). -/
def configKeys : List String :=
  ["DisableNetwork",
   "Socks4Proxy",
   "Socks5Proxy",
   "Socks5ProxyUsername",
   "Socks5ProxyPassword",
   "HTTPSProxy",
   "HTTPSProxyAuthenticator",
   "ReachableAddresses",
   "Bridge",
   "UseBridges"]

/-- `fmt::format("{}:{}", address, port)` for a proxy endpoint. -/
def formatAddrPort (address : String) (port : Nat) : String :=
  address ++ ":" ++ toString port

/-- The firewall-port rendering of context.cpp lines 252-265: the first
port as `*:p`, every later port prefixed with `", "`. Only reached when
the port list is non-empty. -/
def formatReachable : List Nat → String
  | [] => ""
  | p :: rest => rest.foldl (fun acc q => acc ++ ", *:" ++ toString q) ("*:" ++ toString p)

/-- The patch map built by `tego_context::update_tor_daemon_config`
(context.cpp lines 192-279) and handed to `setConfiguration`: seed every
recognized key with the empty string, then overwrite only the keys whose
input fields are present. -/
def update_tor_daemon_config_patch (config : tego_tor_daemon_config) :
    List (String × QVariant) :=
  let vm := configKeys.foldl (fun m k => setVar m k (QVariant.str "")) []
  let vm := match config.disableNetwork with
    | some b => setVar vm "DisableNetwork" (QVariant.str (if b then "1" else "0"))
    | Option.none => vm
  let vm := match config.proxy.type with
    | tego_proxy_type.none => vm
    | tego_proxy_type.socks4 =>
        setVar vm "Socks4Proxy"
          (QVariant.str (formatAddrPort config.proxy.address config.proxy.port))
    | tego_proxy_type.socks5 =>
        let vm := setVar vm "Socks5Proxy"
          (QVariant.str (formatAddrPort config.proxy.address config.proxy.port))
        let vm := if config.proxy.username ≠ "" then
            setVar vm "Socks5ProxyUsername" (QVariant.str config.proxy.username)
          else vm
        if config.proxy.password ≠ "" then
          setVar vm "Socks5ProxyPassword" (QVariant.str config.proxy.password)
        else vm
    | tego_proxy_type.https =>
        let vm := setVar vm "HTTPSProxy"
          (QVariant.str (formatAddrPort config.proxy.address config.proxy.port))
        if config.proxy.username ≠ "" ∨ config.proxy.password ≠ "" then
          setVar vm "HTTPSProxyAuthenticator"
            (QVariant.str (config.proxy.username ++ ":" ++ config.proxy.password))
        else vm
  let vm := if config.allowedPorts.length > 0 then
      setVar vm "ReachableAddresses" (QVariant.str (formatReachable config.allowedPorts))
    else vm
  let vm := if config.bridges.length > 0 then
      setVar (setVar vm "Bridge" (QVariant.strList config.bridges)) "UseBridges"
        (QVariant.str "1")
    else vm
  vm

/-- The outcome of the public `tego_context_update_tor_daemon_config`
operation: either the error was set and the sentinel returned
(`errorSet`), or the null `torConfig` pointer was dereferenced
(`nullDeref`, undefined behavior), or the patch was built and passed to
`setConfiguration` (`applied`). -/
inductive UpdateOutcome
  | errorSet
  | nullDeref
  | applied (patch : List (String × QVariant))
deriving DecidableEq

/-- `tego_context_update_tor_daemon_config` (context.cpp lines 504-515)
followed by `tego_context::update_tor_daemon_config` (lines 186-280): the
ABI wrapper null-checks only `context`; the member function null-checks
`torControl` and then immediately binds `const auto& config =
*daemonConfig` and reads through it with no null check on the config
pointer, which the model records as `nullDeref`. -/
def tego_context_update_tor_daemon_config (ctxPresent torControlPresent : Bool)
    (torConfig : Option tego_tor_daemon_config) : UpdateOutcome :=
  if ctxPresent = false then
    UpdateOutcome.errorSet
  else if torControlPresent = false then
    UpdateOutcome.errorSet
  else
    match torConfig with
    | Option.none => UpdateOutcome.nullDeref
    | some cfg => UpdateOutcome.applied (update_tor_daemon_config_patch cfg)

/-! ## Status translation -/

/-- The collaborator process states named by the switch in
`tego_context::get_tor_process_status` (context.cpp lines 97-109);
`outOfRange` stands for any other raw enum value, which falls through the
switch to the trailing `return tego_tor_process_status_unknown`. -/
inductive TorProcessState
  | Failed
  | NotStarted
  | Starting
  | Connecting
  | Ready
  | outOfRange
deriving DecidableEq

inductive tego_tor_process_status
  | external
  | failed
  | not_started
  | starting
  | running
  | unknown
deriving DecidableEq

/-- `tego_context::get_tor_process_status` (context.cpp lines 87-112):
`Option.none` models `torManager->process() == nullptr`, reported as the
running-externally status (a successful return, not an error). -/
def get_tor_process_status : Option TorProcessState → tego_tor_process_status
  | Option.none => tego_tor_process_status.external
  | some TorProcessState.Failed => tego_tor_process_status.failed
  | some TorProcessState.NotStarted => tego_tor_process_status.not_started
  | some TorProcessState.Starting => tego_tor_process_status.starting
  | some TorProcessState.Connecting => tego_tor_process_status.running
  | some TorProcessState.Ready => tego_tor_process_status.running
  | some TorProcessState.outOfRange => tego_tor_process_status.unknown

/-- Modelled from the spec: the raw enum values of the collaborator's
`Tor::TorControl::TorStatus` named by `tego_context::get_tor_network_status`
(`TorControl.h` is not under src/); only their distinctness matters, every
other value takes the switch's `default` branch. -/
def TorOffline : Int := 0

/-- Modelled from the spec: see `TorOffline`. -/
def TorReady : Int := 1

inductive tego_tor_network_status
  | offline
  | ready
  | unknown
deriving DecidableEq

/-- `tego_context::get_tor_network_status` (context.cpp lines 114-126):
the two recognized collaborator values map to offline/ready, everything
else takes the `default` branch and maps to unknown. -/
def get_tor_network_status (torStatus : Int) : tego_tor_network_status :=
  if torStatus = TorOffline then tego_tor_network_status.offline
  else if torStatus = TorReady then tego_tor_network_status.ready
  else tego_tor_network_status.unknown

/-- `tego_context::get_tor_control_status` (context.cpp lines 81-85): a
bare `static_cast<tego_tor_control_status_t>` of the collaborator's raw
status value, i.e. the identity on the underlying integer. -/
def get_tor_control_status (status : Int) : Int :=
  status

/-- Modelled from the spec: the recognized collaborator control-status
values (the collaborator's status enum is not under src/; the spec
describes a small fixed set of reported states, modelled as the raw
values 0..4). -/
def recognizedControlStatus (v : Int) : Prop :=
  0 ≤ v ∧ v ≤ 4

/-! ## Bootstrap tag tables -/

/-- The wire-tag table of `tego_context::get_tor_bootstrap_tag`
(context.cpp lines 136-164), in declaration order. -/
def tagList : List String :=
  ["starting",
   "conn_pt",
   "conn_done_pt",
   "conn_proxy",
   "conn_done_proxy",
   "conn",
   "conn_done",
   "handshake",
   "handshake_done",
   "onehop_create",
   "requesting_status",
   "loading_status",
   "loading_keys",
   "requesting_descriptors",
   "loading_descriptors",
   "enough_dirinfo",
   "ap_conn_pt_summary",
   "ap_conn_done_pt",
   "ap_conn_proxy",
   "ap_conn_done_proxy",
   "ap_conn",
   "ap_conn_done",
   "ap_handshake",
   "ap_handshake_done",
   "circuit_create",
   "done"]

/-- The summary table of `tego_tor_bootstrap_tag_to_summary`
(context.cpp lines 307-335), in declaration order. -/
def summaryList : List String :=
  ["Starting",
   "Connecting to pluggable transport",
   "Connected to pluggable transport",
   "Connecting to proxy",
   "Connected to proxy",
   "Connecting to a relay",
   "Connected to a relay",
   "Handshaking with a relay",
   "Handshake with a relay done",
   "Establishing an encrypted directory connection",
   "Asking for networkstatus consensus",
   "Loading networkstatus consensus",
   "Loading authority key certs",
   "Asking for relay descriptors",
   "Loading relay descriptors",
   "Loaded enough directory info to build circuits",
   "Connecting to pluggable transport to build circuits",
   "Connected to pluggable transport to build circuits",
   "Connecting to proxy to build circuits",
   "Connected to proxy to build circuits",
   "Connecting to a relay to build circuits",
   "Connected to a relay to build circuits",
   "Finishing handshake with a relay to build circuits",
   "Handshake finished with a relay to build circuits",
   "Establishing a Tor circuit",
   "Done"]

/-- Modelled from the spec: the reserved invalid bootstrap ordinal
(`tego.h` is not under src/; the spec fixes ordinal 0 as the reserved
"invalid" entry of the table). -/
def tego_tor_bootstrap_tag_invalid : Int := 0

/-- `tego_tor_bootstrap_tag_count`, pinned by the source's
`static_assert(tego::countof(tagList) == tego_tor_bootstrap_tag_count)`
to the table length 26 (context.cpp lines 165 and 336). -/
def tego_tor_bootstrap_tag_count : Int := 26

/-- `tego_tor_bootstrap_tag_to_summary` (context.cpp lines 297-340):
throws (caught at the boundary, error set, null sentinel returned,
modelled as `Option.none`) unless `invalid < tag < count`, then returns
`summaryList[tag]`. -/
def tego_tor_bootstrap_tag_to_summary (tag : Int) : Option String :=
  if tego_tor_bootstrap_tag_invalid < tag ∧ tag < tego_tor_bootstrap_tag_count then
    summaryList[tag.toNat]?
  else
    Option.none

/-- `tego_context::get_tor_bootstrap_tag` (context.cpp lines 128-176):
linear scan of `tagList`, returning the raw index of the first match cast
to the public tag type; an unmatched tag string throws
(`Option.none`). -/
def get_tor_bootstrap_tag (bootstrapTag : String) : Option Int :=
  (tagList.findIdx? (fun s => s == bootstrapTag)).map (fun i => (i : Int))

/-- A daemon configuration whose only set field is `disableNetwork =
true`: proxy type none, no allowed ports, no bridges. -/
def disableOnlyConfig : tego_tor_daemon_config :=
  ⟨some true, ⟨tego_proxy_type.none, "", 0, "", ""⟩, [], []⟩

/-! ## Helper lemmas about the log model -/

theorem logs_size_foldl_shift (logs : List String) (a : Nat) :
    logs.foldl (fun acc msg => acc + (msg.length + 1)) a
      = a + logs.foldl (fun acc msg => acc + (msg.length + 1)) 0 := by
  induction logs generalizing a with
  | nil => simp
  | cons x xs ih =>
      simp only [List.foldl]
      rw [ih (a + (x.length + 1)), ih (0 + (x.length + 1))]
      omega

theorem serialize_body_length (logs : List String) (acc : List Char) :
    (logs.foldl (fun a line => a ++ line.data ++ ['\n']) acc).length
      = acc.length + get_tor_logs_size logs := by
  induction logs generalizing acc with
  | nil => simp [get_tor_logs_size]
  | cons x xs ih =>
      simp only [List.foldl]
      rw [ih (acc ++ x.data ++ ['\n'])]
      have hx : x.data.length = x.length := rfl
      have hsz : get_tor_logs_size (x :: xs)
          = (x.length + 1) + get_tor_logs_size xs := by
        simp only [get_tor_logs_size, List.foldl]
        rw [logs_size_foldl_shift xs (0 + (x.length + 1))]
        omega
      simp [List.length_append, hx, hsz]
      omega

theorem serializeLogs_length (logs : List String) :
    (serializeLogs logs).length = get_tor_logs_size logs + 1 := by
  unfold serializeLogs
  rw [List.length_append, serialize_body_length]
  simp

theorem syncLogs_append (loc t : List String) :
    syncLogs loc (loc ++ t) = loc ++ t := by
  unfold syncLogs
  rcases eq_or_ne t [] with rfl | ht
  · simp
  · have h0 : t.length ≠ 0 := fun h => ht (List.eq_nil_of_length_eq_zero h)
    have hlen : (loc ++ t).length ≠ loc.length := by
      simp only [List.length_append]
      omega
    rw [if_pos hlen, List.drop_left]

/-! ## Claim theorems -/

/-- C1: evaluated at the failing input. With a valid context and control
channel, `tego_context_update_tor_daemon_config` called with a null
`torConfig` dereferences the null pointer (the member function binds and
reads `*daemonConfig` without a null check) instead of failing with the
precondition-violation error the claim requires. -/
theorem update_config_null_config_deref :
    tego_context_update_tor_daemon_config true true Option.none = UpdateOutcome.nullDeref ∧
    UpdateOutcome.nullDeref ≠ UpdateOutcome.errorSet := by
  decide

/-- C2: evaluated at the failing input. The null-buffer half of the claim
holds (the call fails with the error set and writes nothing), but with
`bufferCapacity = 0` and a valid buffer the call does not fail: it
proceeds, computes `copyCount = 0`, and stores the forced terminator at
byte index `(size_t)(0 - 1) = 2 ^ 64 - 1` of the buffer — an
out-of-bounds write — contradicting the claim that nothing is written
outside the caller's buffer. -/
theorem get_tor_logs_zero_capacity_oob :
    tego_context_get_tor_logs_writes true false [] 4 = Option.none ∧
    tego_context_get_tor_logs_writes true true [] 0 = some (0, [SIZE_T_MOD - 1]) ∧
    SIZE_T_MOD - 1 = 18446744073709551615 := by
  refine ⟨rfl, ?_, by decide⟩
  decide

/-- C3: for every log sequence and every capacity ≥ 1 with a valid
buffer, the copy returns `n = min(capacity, serialized size)`, leaves
exactly `n ≤ capacity` bytes in the buffer, and the byte at index
`n - 1` is the null terminator. -/
theorem copy_logs_bounded_and_terminated (logs : List String) (cap : Nat)
    (hcap : 1 ≤ cap) :
    (copyLogsInto logs cap).1 = min cap (serializeLogs logs).length ∧
    (copyLogsInto logs cap).2.length = (copyLogsInto logs cap).1 ∧
    (copyLogsInto logs cap).1 ≤ cap ∧
    ((copyLogsInto logs cap).2)[(copyLogsInto logs cap).1 - 1]?
      = some (Char.ofNat 0) := by
  have hser : 1 ≤ (serializeLogs logs).length := by
    rw [serializeLogs_length]
    omega
  have h1 : (copyLogsInto logs cap).1 = min cap (serializeLogs logs).length := rfl
  have h2 : (copyLogsInto logs cap).2
      = ((serializeLogs logs).take (min cap (serializeLogs logs).length)).set
          (min cap (serializeLogs logs).length - 1) (Char.ofNat 0) := rfl
  have hn1 : 1 ≤ min cap (serializeLogs logs).length := le_min hcap hser
  have hnser : min cap (serializeLogs logs).length ≤ (serializeLogs logs).length :=
    min_le_right _ _
  have htake : ((serializeLogs logs).take (min cap (serializeLogs logs).length)).length
      = min cap (serializeLogs logs).length := by
    rw [List.length_take]
    omega
  refine ⟨h1, ?_, ?_, ?_⟩
  · rw [h1, h2, List.length_set, htake]
  · rw [h1]
    exact min_le_left _ _
  · rw [h1, h2]
    have hlt : min cap (serializeLogs logs).length - 1
        < ((serializeLogs logs).take (min cap (serializeLogs logs).length)).length := by
      rw [htake]
      omega
    exact List.getElem?_set_eq_of_lt (Char.ofNat 0) hlt

/-- C3 witness: the theorem applied at logs = ["a", "bb"], capacity 3. -/
theorem copy_logs_bounded_and_terminated_witness :
    1 ≤ 3 ∧
    ((copyLogsInto ["a", "bb"] 3).1 = min 3 (serializeLogs ["a", "bb"]).length ∧
     (copyLogsInto ["a", "bb"] 3).2.length = (copyLogsInto ["a", "bb"] 3).1 ∧
     (copyLogsInto ["a", "bb"] 3).1 ≤ 3 ∧
     ((copyLogsInto ["a", "bb"] 3).2)[(copyLogsInto ["a", "bb"] 3).1 - 1]?
       = some (Char.ofNat 0)) :=
  ⟨by decide, copy_logs_bounded_and_terminated ["a", "bb"] 3 (by decide)⟩

/-- C4 counterexample: with logs ["a", "bb"] the size query returns 5 but
the null-terminated serialization the copy operation produces,
"a\nbb\n\x00", occupies 6 bytes, so `get_tor_logs_size` does not equal
the size of that serialization. -/
theorem logs_size_ne_serialized_size :
    ¬ (get_tor_logs_size ["a", "bb"] = (serializeLogs ["a", "bb"]).length) := by
  decide

/-- C4 amended: `get_tor_logs_size` returns the sum over log lines of
(line length + 1), which is exactly one byte less than the full
serialization including the trailing null; concretely, with logs
["a", "bb"] the size query returns 5, the serialization is
"a\nbb\n\x00" (6 bytes), and with capacity 3 exactly 3 bytes are
written, the last being null. -/
theorem logs_size_and_serialization :
    get_tor_logs_size ["a", "bb"] = 5 ∧
    serializeLogs ["a", "bb"] = ['a', '\n', 'b', 'b', '\n', Char.ofNat 0] ∧
    (∀ logs : List String, (serializeLogs logs).length = get_tor_logs_size logs + 1) ∧
    copyLogsInto ["a", "bb"] 3 = (3, ['a', '\n', Char.ofNat 0]) :=
  ⟨by decide, by decide, serializeLogs_length, by decide⟩

/-- C5: when the local mirror is a prefix of the collaborator sequence,
one sync makes it equal to the collaborator sequence; a second sync with
an unchanged collaborator sequence is a no-op; and if the collaborator
appends `news` between calls, the next sync appends exactly `news`,
leaving every previously stored entry unchanged and in position (the old
mirror stays a prefix). -/
theorem log_mirror_monotonic (loc remote news : List String)
    (h : loc <+: remote) :
    syncLogs loc remote = remote ∧
    syncLogs (syncLogs loc remote) remote = syncLogs loc remote ∧
    syncLogs (syncLogs loc remote) (remote ++ news) = syncLogs loc remote ++ news ∧
    (syncLogs (syncLogs loc remote) (remote ++ news)).length
      = (syncLogs loc remote).length + news.length ∧
    syncLogs loc remote <+: syncLogs (syncLogs loc remote) (remote ++ news) := by
  obtain ⟨t, rfl⟩ := h
  have h1 : syncLogs loc (loc ++ t) = loc ++ t := syncLogs_append loc t
  rw [h1]
  have h2 : syncLogs (loc ++ t) (loc ++ t) = loc ++ t := by
    have h3 := syncLogs_append (loc ++ t) []
    simpa using h3
  have h4 : syncLogs (loc ++ t) ((loc ++ t) ++ news) = (loc ++ t) ++ news :=
    syncLogs_append (loc ++ t) news
  refine ⟨rfl, h2, h4, ?_, ?_⟩
  · rw [h4, List.length_append]
  · rw [h4]
    exact ⟨news, rfl⟩

/-- C5 witness: the theorem applied at loc = ["a"],
remote = ["a", "b"], news = ["c"]. -/
theorem log_mirror_monotonic_witness :
    (["a"] <+: ["a", "b"]) ∧
    (syncLogs ["a"] ["a", "b"] = ["a", "b"] ∧
     syncLogs (syncLogs ["a"] ["a", "b"]) ["a", "b"] = syncLogs ["a"] ["a", "b"] ∧
     syncLogs (syncLogs ["a"] ["a", "b"]) (["a", "b"] ++ ["c"])
       = syncLogs ["a"] ["a", "b"] ++ ["c"] ∧
     (syncLogs (syncLogs ["a"] ["a", "b"]) (["a", "b"] ++ ["c"])).length
       = (syncLogs ["a"] ["a", "b"]).length + (["c"] : List String).length ∧
     syncLogs ["a"] ["a", "b"] <+: syncLogs (syncLogs ["a"] ["a", "b"]) (["a", "b"] ++ ["c"])) :=
  ⟨⟨["b"], rfl⟩, log_mirror_monotonic ["a"] ["a", "b"] ["c"] ⟨["b"], rfl⟩⟩

/-- C6: with only `disableNetwork = true` set (proxy type none, no ports,
no bridges), the patch handed to `setConfiguration` maps
"DisableNetwork" to "1" and every other recognized key to the empty
string — present in the map but inert, not omitted. -/
theorem config_patch_disable_network_only :
    (update_tor_daemon_config_patch disableOnlyConfig).lookup "DisableNetwork"
      = some (QVariant.str "1") ∧
    (configKeys.all fun k =>
      (update_tor_daemon_config_patch disableOnlyConfig).lookup k
        == some (QVariant.str (if k == "DisableNetwork" then "1" else ""))) = true ∧
    update_tor_daemon_config_patch disableOnlyConfig
      = [("DisableNetwork", QVariant.str "1"),
         ("Socks4Proxy", QVariant.str ""),
         ("Socks5Proxy", QVariant.str ""),
         ("Socks5ProxyUsername", QVariant.str ""),
         ("Socks5ProxyPassword", QVariant.str ""),
         ("HTTPSProxy", QVariant.str ""),
         ("HTTPSProxyAuthenticator", QVariant.str ""),
         ("ReachableAddresses", QVariant.str ""),
         ("Bridge", QVariant.str ""),
         ("UseBridges", QVariant.str "")] := by
  refine ⟨by decide, by decide, by decide⟩

/-- C7: `get_tor_process_status` reports running-externally exactly when
no process object exists (a successful status, not an error — the
function is total on that input); Failed, NotStarted and Starting map to
their counterparts, Connecting and Ready both map to running, and any
other collaborator state falls through to unknown. -/
theorem process_status_translation (s : Option TorProcessState) :
    (get_tor_process_status s = tego_tor_process_status.external ↔ s = Option.none) ∧
    get_tor_process_status (some TorProcessState.Failed)
      = tego_tor_process_status.failed ∧
    get_tor_process_status (some TorProcessState.NotStarted)
      = tego_tor_process_status.not_started ∧
    get_tor_process_status (some TorProcessState.Starting)
      = tego_tor_process_status.starting ∧
    get_tor_process_status (some TorProcessState.Connecting)
      = tego_tor_process_status.running ∧
    get_tor_process_status (some TorProcessState.Ready)
      = tego_tor_process_status.running ∧
    get_tor_process_status (some TorProcessState.outOfRange)
      = tego_tor_process_status.unknown := by
  refine ⟨?_, rfl, rfl, rfl, rfl, rfl, rfl⟩
  cases s with
  | none => simp [get_tor_process_status]
  | some ps => cases ps <;> simp [get_tor_process_status]

/-- C8: every bootstrap ordinal in [1, 25] yields a non-empty summary
string; ordinal 0 (the reserved invalid ordinal) and every ordinal ≥ 26
fail with the error set and the null sentinel returned. -/
theorem bootstrap_summary_range (tag : Int) :
    (1 ≤ tag → tag ≤ 25 →
      ∃ s, tego_tor_bootstrap_tag_to_summary tag = some s ∧ s ≠ "") ∧
    (tag = 0 → tego_tor_bootstrap_tag_to_summary tag = Option.none) ∧
    (26 ≤ tag → tego_tor_bootstrap_tag_to_summary tag = Option.none) := by
  refine ⟨?_, ?_, ?_⟩
  · intro h1 h2
    have hc : tego_tor_bootstrap_tag_invalid < tag ∧ tag < tego_tor_bootstrap_tag_count := by
      simp only [tego_tor_bootstrap_tag_invalid, tego_tor_bootstrap_tag_count]
      omega
    have hlen : summaryList.length = 26 := rfl
    have hlt : tag.toNat < summaryList.length := by
      rw [hlen]
      omega
    refine ⟨summaryList.get ⟨tag.toNat, hlt⟩, ?_, ?_⟩
    · unfold tego_tor_bootstrap_tag_to_summary
      rw [if_pos hc, List.getElem?_eq_getElem hlt]
      rfl
    · have hall : ∀ s ∈ summaryList, s ≠ "" := by decide
      exact hall _ (List.get_mem summaryList tag.toNat hlt)
  · intro h0
    subst h0
    decide
  · intro h26
    unfold tego_tor_bootstrap_tag_to_summary
    have hc : ¬ (tego_tor_bootstrap_tag_invalid < tag ∧ tag < tego_tor_bootstrap_tag_count) := by
      simp only [tego_tor_bootstrap_tag_invalid, tego_tor_bootstrap_tag_count]
      omega
    rw [if_neg hc]

/-- C8 witness: the theorem applied at ordinal 5. -/
theorem bootstrap_summary_range_witness :
    ∃ s, tego_tor_bootstrap_tag_to_summary 5 = some s ∧ s ≠ "" :=
  (bootstrap_summary_range 5).1 (by decide) (by decide)

/-- C9 counterexample: `get_tor_control_status` is a bare cast of the
collaborator's raw value, so distinct unrecognized values 9998 and 9999
reach the caller unchanged; hence no single "unknown" sentinel value can
be what all unrecognized control states map to, refuting the claim for
the control-status half. -/
theorem control_status_not_mapped_to_sentinel :
    get_tor_control_status 9998 = 9998 ∧
    get_tor_control_status 9999 = 9999 ∧
    ¬ ∃ u : Int, ∀ v : Int, ¬ recognizedControlStatus v → get_tor_control_status v = u := by
  refine ⟨rfl, rfl, ?_⟩
  rintro ⟨u, hu⟩
  have h1 := hu 9998 (by unfold recognizedControlStatus; omega)
  have h2 := hu 9999 (by unfold recognizedControlStatus; omega)
  unfold get_tor_control_status at h1 h2
  omega

/-- C9 amended: `get_tor_network_status` maps every collaborator value
other than the two recognized ones to the explicit unknown sentinel, but
`get_tor_control_status` passes the collaborator's raw value through
unchanged (a direct cast), so out-of-range control values are not mapped
to an unknown sentinel. -/
theorem network_unknown_control_passthrough (v : Int)
    (hoff : v ≠ TorOffline) (hready : v ≠ TorReady) :
    get_tor_network_status v = tego_tor_network_status.unknown ∧
    get_tor_control_status v = v := by
  refine ⟨?_, rfl⟩
  unfold get_tor_network_status
  rw [if_neg hoff, if_neg hready]

/-- C9 witness: the amended theorem applied at collaborator value 7. -/
theorem network_unknown_control_passthrough_witness :
    (7 : Int) ≠ TorOffline ∧ (7 : Int) ≠ TorReady ∧
    (get_tor_network_status 7 = tego_tor_network_status.unknown ∧
     get_tor_control_status 7 = 7) :=
  ⟨by decide, by decide, network_unknown_control_passthrough 7 (by decide) (by decide)⟩

/-- C10: evaluated at the failing input. The wire tag "starting" parses
to the raw table index 0, which is the reserved invalid ordinal, and
`tego_tor_bootstrap_tag_to_summary` rejects ordinal 0 with an error
instead of producing the summary — so the parse does return an ordinal
the summary lookup rejects, contrary to the claim. -/
theorem starting_tag_rejected_by_summary :
    get_tor_bootstrap_tag "starting" = some tego_tor_bootstrap_tag_invalid ∧
    tego_tor_bootstrap_tag_to_summary tego_tor_bootstrap_tag_invalid = Option.none := by
  decide

end Tego
